import Mathlib

/-!
Shallow embedding of the rust-basic MCP server template
(src/packages/templates/templates/rust-basic/src: main.rs, server.rs,
tools.rs).

The server reads newline-delimited JSON-RPC requests from stdin and writes
one response line per input line.  We embed the JSON data model, the serde
derive decoding of the Request struct, the tool provider (tools.rs) and
the dispatch/handler logic of server.rs, and prove the specification's
claims about them.

Modelling conventions:
* A JSON value is the inductive Json; JSON numbers are modelled as
  rationals (exact on every integer test vector of the specification; the
  f64 rounding of values the format does not represent exactly is outside
  the model).
* An input line is either Line.garbage (text that is not valid JSON) or
  Line.json j (text whose JSON parse is j); the textual JSON grammar
  itself is external to the claims.
* The template placeholder for the server name (specification section 1
  treats the name/version as injected configuration, not protocol logic)
  is modelled as an explicit serverName parameter, injected both into
  MCPServer.new and into the tool provider's hello text, exactly where the
  placeholder occurs in the source.
* resources.rs is not part of the given sources; per specification section
  4.3 the server treats the Resources provider opaquely through its list
  and invoke operations, so it enters the embedding as parameters
  listResources and readResource.
-/

namespace ContextPods

/-- A JSON value (serde_json Value).  Objects keep their fields as an
association list in order of appearance; numbers are rationals. -/
inductive Json where
  | null : Json
  | bool : Bool → Json
  | num : Rat → Json
  | str : String → Json
  | arr : List Json → Json
  | obj : List (String × Json) → Json

/-- Models serde_json Value.get(key): the field value when the receiver is
an object containing the key, and none otherwise. -/
def Json.get (j : Json) (key : String) : Option Json :=
  match j with
  | .obj fields => fields.lookup key
  | _ => none

/-- Models string indexing on a serde_json Value (the Index impl used as
params["name"] in tools.rs): the field value when the receiver is an
object containing the key, and Value.Null otherwise. -/
def Json.index (j : Json) (key : String) : Json :=
  (j.get key).getD .null

/-- Models Value.as_str: succeeds exactly on string values. -/
def Json.as_str : Json → Option String
  | .str s => some s
  | _ => none

/-- Models Value.as_f64: succeeds exactly on number values. -/
def Json.as_f64 : Json → Option Rat
  | .num q => some q
  | _ => none

/-- The Request struct of server.rs. -/
structure Request where
  jsonrpc : String
  method : String
  id : Option Json
  params : Option Json

/-- The ErrorResponse struct of server.rs. -/
structure ErrorResponse where
  code : Int
  message : String

/-- The Response struct of server.rs.  The result and error fields are
skipped during serialization when none; id is always emitted (null when
none). -/
structure Response where
  jsonrpc : String
  id : Option Json
  result : Option Json
  error : Option ErrorResponse

/-- Exactly one of the result and error fields of a response is present. -/
def Response.exclusiveResultError (r : Response) : Prop :=
  (r.result.isSome ∧ r.error = none) ∨ (r.result = none ∧ r.error.isSome)

/-- Models how serde maps both an absent field and an explicit JSON null
to None for a struct field of type Option Value. -/
def optValue : Option Json → Option Json
  | some .null => none
  | o => o

/-- The field names of the Request struct, in declaration order. -/
def requestFieldNames : List String := ["jsonrpc", "method", "id", "params"]

/-- Models the duplicate-field rejection of a serde-derived struct
deserializer: a key naming a struct field that occurs more than once in
the object is a duplicate-field error.  Repeated unknown keys are merely
ignored twice. -/
def duplicateKnownField (fields : List (String × Json)) : Bool :=
  requestFieldNames.any fun k => 1 < (fields.map Prod.fst).count k

/-- Models the serde derive deserialization of Request from a parsed JSON
value.  From an object (visit_map): every known field may occur at most
once, jsonrpc and method must be present strings, id and params are
optional and may hold any JSON value (null collapsing to absent), and
unknown fields are ignored.  From an array (visit_seq): serde_json fills
the struct positionally, so the array must hold exactly four elements
(fewer is an invalid-length error, more is a trailing-characters error),
the first two being the jsonrpc and method strings and the last two the
id and params values (null again collapsing to absent).  Every other JSON
value is a type error. -/
def Request.fromJson (j : Json) : Option Request :=
  match j with
  | .obj fields =>
    if duplicateKnownField fields then none
    else
      match fields.lookup "jsonrpc", fields.lookup "method" with
      | some (.str jr), some (.str m) =>
          some ⟨jr, m, optValue (fields.lookup "id"), optValue (fields.lookup "params")⟩
      | _, _ => none
  | .arr [jrv, mv, idv, pv] =>
    match jrv, mv with
    | .str jr, .str m => some ⟨jr, m, optValue (some idv), optValue (some pv)⟩
    | _, _ => none
  | _ => none

/-- Embeds tools.rs list_tools: the two static tool descriptors. -/
def list_tools : List Json :=
  [ .obj [("name", .str "hello"),
          ("description", .str "Say hello to someone"),
          ("inputSchema", .obj
            [("type", .str "object"),
             ("properties", .obj
               [("name", .obj [("type", .str "string"),
                               ("description", .str "Name to greet")])]),
             ("required", .arr [.str "name"])])],
    .obj [("name", .str "add"),
          ("description", .str "Add two numbers"),
          ("inputSchema", .obj
            [("type", .str "object"),
             ("properties", .obj
               [("a", .obj [("type", .str "number"),
                            ("description", .str "First number")]),
                ("b", .obj [("type", .str "number"),
                            ("description", .str "Second number")])]),
             ("required", .arr [.str "a", .str "b"])])] ]

/-- Models the default Display formatting of an f64 in Rust, on the
fragment the model exercises: an integral value prints with no decimal
point.  Non-integral values are rendered as num/den, a stand-in for the
shortest-decimal rendering, which no claim exercises. -/
def fmtNum (q : Rat) : String :=
  if q.den = 1 then toString q.num else toString q.num ++ "/" ++ toString q.den

/-- Embeds tools.rs call_tool, with the serverName template placeholder
occurring in the hello text as the serverName parameter. -/
def call_tool (serverName : String) (params : Json) : Except String Json :=
  match (params.index "name").as_str with
  | none => .error "Missing tool name"
  | some name =>
    match params.get "arguments" with
    | none => .error "Missing tool arguments"
    | some arguments =>
      match name with
      | "hello" =>
        match (arguments.index "name").as_str with
        | none => .error "Missing name parameter"
        | some n =>
          .ok (.obj [("content", .arr
            [.obj [("type", .str "text"),
                   ("text", .str ("Hello, " ++ n ++ "! This is " ++
                                  serverName ++ " speaking."))]])])
      | "add" =>
        match (arguments.index "a").as_f64 with
        | none => .error "Parameter 'a' must be a number"
        | some a =>
          match (arguments.index "b").as_f64 with
          | none => .error "Parameter 'b' must be a number"
          | some b =>
            .ok (.obj [("content", .arr
              [.obj [("type", .str "text"),
                     ("text", .str (fmtNum a ++ " + " ++ fmtNum b ++
                                    " = " ++ fmtNum (a + b)))]])])
      | _ => .error ("Unknown tool: " ++ name)

/-- The MCPServer struct of server.rs. -/
structure MCPServer where
  name : String
  version : String

/-- Embeds MCPServer::new, with the serverName template placeholder as the
serverName parameter; the version is the literal "0.1.0". -/
def MCPServer.new (serverName : String) : MCPServer :=
  { name := serverName, version := "0.1.0" }

/-- Embeds MCPServer::handle_initialize. -/
def MCPServer.handle_initialize (s : MCPServer) (id : Option Json) : Response :=
  { jsonrpc := "2.0", id := id,
    result := some (.obj
      [("protocolVersion", .str "1.0"),
       ("capabilities", .obj [("tools", .obj []), ("resources", .obj [])]),
       ("serverInfo", .obj [("name", .str s.name),
                            ("version", .str s.version)])]),
    error := none }

/-- Embeds MCPServer::handle_list_tools. -/
def MCPServer.handle_list_tools (_s : MCPServer) (id : Option Json) : Response :=
  { jsonrpc := "2.0", id := id,
    result := some (.obj [("tools", .arr list_tools)]),
    error := none }

/-- Embeds MCPServer::handle_call_tool; serverName is the placeholder
injected into call_tool. -/
def handle_call_tool (serverName : String) (id : Option Json)
    (params : Option Json) : Response :=
  match params with
  | some p =>
    match call_tool serverName p with
    | .ok result =>
        { jsonrpc := "2.0", id := id, result := some result, error := none }
    | .error e =>
        { jsonrpc := "2.0", id := id, result := none,
          error := some { code := -32603, message := e } }
  | none =>
      { jsonrpc := "2.0", id := id, result := none,
        error := some { code := -32602, message := "Invalid params" } }

/-- Embeds MCPServer::handle_list_resources; listResources stands for the
opaque list_resources of the absent resources.rs (specification section
4.3 makes it a provider behind a side-effect-free list operation). -/
def handle_list_resources (listResources : List Json)
    (id : Option Json) : Response :=
  { jsonrpc := "2.0", id := id,
    result := some (.obj [("resources", .arr listResources)]),
    error := none }

/-- Embeds MCPServer::handle_read_resource; readResource stands for the
opaque read_resource of the absent resources.rs (specification section
4.3 makes it a provider behind an invoke operation returning a Result). -/
def handle_read_resource (readResource : Json → Except String Json)
    (id : Option Json) (params : Option Json) : Response :=
  match params with
  | some p =>
    match readResource p with
    | .ok result =>
        { jsonrpc := "2.0", id := id, result := some result, error := none }
    | .error e =>
        { jsonrpc := "2.0", id := id, result := none,
          error := some { code := -32603, message := e } }
  | none =>
      { jsonrpc := "2.0", id := id, result := none,
        error := some { code := -32602, message := "Invalid params" } }

/-- Embeds MCPServer::handle_request: dispatch on the exact method
string. -/
def MCPServer.handle_request (s : MCPServer) (serverName : String)
    (listResources : List Json) (readResource : Json → Except String Json)
    (request : Request) : Response :=
  match request.method with
  | "initialize" => s.handle_initialize request.id
  | "tools/list" => s.handle_list_tools request.id
  | "tools/call" => handle_call_tool serverName request.id request.params
  | "resources/list" => handle_list_resources listResources request.id
  | "resources/read" => handle_read_resource readResource request.id request.params
  | m =>
      { jsonrpc := "2.0", id := request.id, result := none,
        error := some { code := -32601, message := "Method not found: " ++ m } }

/-- The response built in the Err arm of the serde_json from_str match in
MCPServer::run. -/
def parse_error_response : Response :=
  { jsonrpc := "2.0", id := none, result := none,
    error := some { code := -32700, message := "Parse error" } }

/-- One line of stdin, as the claims see it: either text that is not valid
JSON, or text whose JSON parse is the given value. -/
inductive Line where
  | garbage : Line
  | json : Json → Line

/-- Models serde_json from_str applied to the Request type on one input
line: text that is not valid JSON fails, and a parsed JSON value must
decode through the derived Deserialize of Request. -/
def decodeLine : Line → Option Request
  | .garbage => none
  | .json j => Request.fromJson j

/-- One iteration of the loop in MCPServer::run: decode the line, then
either dispatch the request or emit the parse-error response. -/
def MCPServer.processLine (s : MCPServer) (serverName : String)
    (listResources : List Json) (readResource : Json → Except String Json)
    (line : Line) : Response :=
  match decodeLine line with
  | some req => s.handle_request serverName listResources readResource req
  | none => parse_error_response

/-- Embeds the whole MCPServer::run loop: one response per input line, in
order. -/
def MCPServer.run (s : MCPServer) (serverName : String)
    (listResources : List Json) (readResource : Json → Except String Json)
    (lines : List Line) : List Response :=
  lines.map (s.processLine serverName listResources readResource)

/-- A trivial Resources provider used to instantiate witnesses. -/
def noResources : Json → Except String Json :=
  fun _ => .error "resource error"

/-!
Helper lemmas shared by the claim theorems.
-/

theorem handle_call_tool_id (serverName : String) (id : Option Json)
    (params : Option Json) : (handle_call_tool serverName id params).id = id := by
  unfold handle_call_tool
  split
  · split <;> rfl
  · rfl

theorem handle_read_resource_id (readResource : Json → Except String Json)
    (id : Option Json) (params : Option Json) :
    (handle_read_resource readResource id params).id = id := by
  unfold handle_read_resource
  split
  · split <;> rfl
  · rfl

theorem handle_request_id (s : MCPServer) (serverName : String)
    (listResources : List Json) (readResource : Json → Except String Json)
    (req : Request) :
    (s.handle_request serverName listResources readResource req).id = req.id := by
  unfold MCPServer.handle_request
  split <;>
    simp [MCPServer.handle_initialize, MCPServer.handle_list_tools,
          handle_call_tool_id, handle_list_resources, handle_read_resource_id]

theorem processLine_id (s : MCPServer) (serverName : String)
    (listResources : List Json) (readResource : Json → Except String Json)
    (line : Line) :
    (s.processLine serverName listResources readResource line).id =
      match decodeLine line with
      | some req => req.id
      | none => none := by
  unfold MCPServer.processLine
  split
  · exact handle_request_id _ _ _ _ _
  · rfl

theorem handle_call_tool_exclusive (serverName : String) (id : Option Json)
    (params : Option Json) :
    (handle_call_tool serverName id params).exclusiveResultError := by
  unfold handle_call_tool
  split
  · split
    · left; simp
    · right; simp [Response.exclusiveResultError]
  · right; simp [Response.exclusiveResultError]

theorem handle_read_resource_exclusive (readResource : Json → Except String Json)
    (id : Option Json) (params : Option Json) :
    (handle_read_resource readResource id params).exclusiveResultError := by
  unfold handle_read_resource
  split
  · split
    · left; simp
    · right; simp [Response.exclusiveResultError]
  · right; simp [Response.exclusiveResultError]

theorem handle_call_tool_jsonrpc (serverName : String) (id : Option Json)
    (params : Option Json) :
    (handle_call_tool serverName id params).jsonrpc = "2.0" := by
  unfold handle_call_tool
  split
  · split <;> rfl
  · rfl

theorem handle_read_resource_jsonrpc (readResource : Json → Except String Json)
    (id : Option Json) (params : Option Json) :
    (handle_read_resource readResource id params).jsonrpc = "2.0" := by
  unfold handle_read_resource
  split
  · split <;> rfl
  · rfl

theorem processLine_jsonrpc (s : MCPServer) (serverName : String)
    (listResources : List Json) (readResource : Json → Except String Json)
    (line : Line) :
    (s.processLine serverName listResources readResource line).jsonrpc = "2.0" := by
  unfold MCPServer.processLine
  split
  · unfold MCPServer.handle_request
    split <;>
      simp [MCPServer.handle_initialize, MCPServer.handle_list_tools,
            handle_call_tool_jsonrpc, handle_list_resources,
            handle_read_resource_jsonrpc]
  · rfl

theorem tools_call_error_response (s : MCPServer) (serverName : String)
    (listResources : List Json) (readResource : Json → Except String Json)
    (req : Request) (p : Json) (e : String)
    (hm : req.method = "tools/call") (hp : req.params = some p)
    (he : call_tool serverName p = .error e) :
    s.handle_request serverName listResources readResource req
      = { jsonrpc := "2.0", id := req.id, result := none,
          error := some { code := -32603, message := e } } := by
  simp [MCPServer.handle_request, hm, handle_call_tool, hp, he]

theorem tools_call_add_response (s : MCPServer) (serverName : String)
    (listResources : List Json) (readResource : Json → Except String Json)
    (req : Request) (p args : Json) (a b : Rat)
    (hm : req.method = "tools/call") (hp : req.params = some p)
    (hname : p.index "name" = .str "add")
    (hargs : p.get "arguments" = some args)
    (ha : args.index "a" = .num a) (hb : args.index "b" = .num b) :
    s.handle_request serverName listResources readResource req
      = { jsonrpc := "2.0", id := req.id,
          result := some (.obj [("content", .arr
            [.obj [("type", .str "text"),
                   ("text", .str (fmtNum a ++ " + " ++ fmtNum b ++ " = " ++
                                  fmtNum (a + b)))]])]),
          error := none } := by
  simp [MCPServer.handle_request, hm, handle_call_tool, hp, call_tool,
        hname, hargs, ha, hb, Json.as_str, Json.as_f64]

theorem tools_call_hello_response (s : MCPServer) (serverName : String)
    (listResources : List Json) (readResource : Json → Except String Json)
    (req : Request) (p args : Json) (n : String)
    (hm : req.method = "tools/call") (hp : req.params = some p)
    (hname : p.index "name" = .str "hello")
    (hargs : p.get "arguments" = some args)
    (hn : args.index "name" = .str n) :
    s.handle_request serverName listResources readResource req
      = { jsonrpc := "2.0", id := req.id,
          result := some (.obj [("content", .arr
            [.obj [("type", .str "text"),
                   ("text", .str ("Hello, " ++ n ++ "! This is " ++
                                  serverName ++ " speaking."))]])]),
          error := none } := by
  simp [MCPServer.handle_request, hm, handle_call_tool, hp, call_tool,
        hname, hargs, hn, Json.as_str]

/-!
Claim theorems.
-/

/-- C1: for any finite sequence of N input lines, the run loop emits
exactly N response lines in the same order, and the response at each index
carries the id of the request decoded from the line at that index (none,
that is JSON null, when the line did not decode). -/
theorem run_emits_one_response_per_line_in_order (serverName : String)
    (listResources : List Json) (readResource : Json → Except String Json)
    (lines : List Line) :
    ((MCPServer.new serverName).run serverName listResources readResource lines).length
        = lines.length ∧
    ∀ i : Nat,
      (((MCPServer.new serverName).run serverName listResources readResource lines)[i]?).map
          Response.id
        = (lines[i]?).map fun line =>
            match decodeLine line with
            | some req => req.id
            | none => none := by
  constructor
  · simp [MCPServer.run]
  · intro i
    simp only [MCPServer.run, List.getElem?_map]
    cases h : lines[i]? with
    | none => rfl
    | some line => simp [processLine_id]

/-- C2: every response the loop body produces, through any handler, the
method-not-found branch or the parse-error branch, has exactly one of the
result and error fields present. -/
theorem response_result_error_exclusive (s : MCPServer) (serverName : String)
    (listResources : List Json) (readResource : Json → Except String Json)
    (line : Line) :
    (s.processLine serverName listResources readResource line).exclusiveResultError := by
  unfold MCPServer.processLine
  split
  · unfold MCPServer.handle_request
    split
    · left; simp [MCPServer.handle_initialize]
    · left; simp [MCPServer.handle_list_tools]
    · exact handle_call_tool_exclusive _ _ _
    · left; simp [handle_list_resources]
    · exact handle_read_resource_exclusive _ _ _
    · right; simp [Response.exclusiveResultError]
  · right; simp [parse_error_response, Response.exclusiveResultError]

/-- C3 (counterexample): the line consisting of the valid JSON object with
a method field and nothing else fails to decode, because the derived
Deserialize of Request also requires the jsonrpc field; the server answers
it with the parse-error response, although the claim says every valid JSON
line with a method field is decoded and dispatched. -/
theorem decode_missing_jsonrpc_counterexample :
    (Json.obj [("method", Json.str "ping")]).get "method"
        = some (Json.str "ping") ∧
    Request.fromJson (Json.obj [("method", Json.str "ping")]) = none ∧
    (MCPServer.new "srv").processLine "srv" [] noResources
        (Line.json (Json.obj [("method", Json.str "ping")]))
      = { jsonrpc := "2.0", id := none, result := none,
          error := some { code := -32700, message := "Parse error" } } :=
  ⟨rfl, rfl, rfl⟩

/-- C3 (amended): decoding an input line succeeds exactly when the line is
valid JSON and is either an object in which no Request field name is
duplicated and the jsonrpc and method fields are present strings, or an
array of exactly four elements whose first two are strings (serde's
positional struct decoding); in particular the duplicate-key object fails
and the four-element array decodes.  A line that fails to decode is
answered with the response carrying id null and error code -32700, and
every line that decodes is dispatched through handle_request. -/
theorem decode_failure_characterization (s : MCPServer) (serverName : String)
    (listResources : List Json) (readResource : Json → Except String Json)
    (line : Line) :
    ((decodeLine line).isSome ↔
      ∃ j, line = Line.json j ∧
        ((∃ fields jr m, j = Json.obj fields ∧
            duplicateKnownField fields = false ∧
            fields.lookup "jsonrpc" = some (Json.str jr) ∧
            fields.lookup "method" = some (Json.str m)) ∨
         (∃ jr m idv pv,
            j = Json.arr [Json.str jr, Json.str m, idv, pv]))) ∧
    Request.fromJson (Json.obj [("jsonrpc", Json.str "2.0"),
                                ("jsonrpc", Json.str "2.0"),
                                ("method", Json.str "ping")]) = none ∧
    Request.fromJson (Json.arr [Json.str "2.0", Json.str "ping",
                                Json.null, Json.null])
      = some { jsonrpc := "2.0", method := "ping", id := none, params := none } ∧
    (decodeLine line = none →
      s.processLine serverName listResources readResource line
        = { jsonrpc := "2.0", id := none, result := none,
            error := some { code := -32700, message := "Parse error" } }) ∧
    (∀ req, decodeLine line = some req →
      s.processLine serverName listResources readResource line
        = s.handle_request serverName listResources readResource req) := by
  refine ⟨⟨?_, ?_⟩, rfl, rfl, ?_, ?_⟩
  · intro h
    cases line with
    | garbage => simp [decodeLine] at h
    | json j =>
      refine ⟨j, rfl, ?_⟩
      cases j with
      | obj fields =>
        left
        cases hd : duplicateKnownField fields with
        | true => simp [decodeLine, Request.fromJson, hd] at h
        | false =>
          cases h1 : fields.lookup "jsonrpc" with
          | none => simp [decodeLine, Request.fromJson, hd, h1] at h
          | some v1 =>
            rcases v1 with _ | b | q | jr | xs | fs
            case str =>
              cases h2 : fields.lookup "method" with
              | none => simp [decodeLine, Request.fromJson, hd, h1, h2] at h
              | some v2 =>
                rcases v2 with _ | b2 | q2 | m | xs2 | fs2
                case str => exact ⟨fields, jr, m, rfl, hd, h1, h2⟩
                all_goals simp [decodeLine, Request.fromJson, hd, h1, h2] at h
            all_goals simp [decodeLine, Request.fromJson, hd, h1] at h
      | arr xs =>
        right
        rcases xs with _ | ⟨jrv, xs⟩
        · simp [decodeLine, Request.fromJson] at h
        rcases xs with _ | ⟨mv, xs⟩
        · simp [decodeLine, Request.fromJson] at h
        rcases xs with _ | ⟨idv, xs⟩
        · simp [decodeLine, Request.fromJson] at h
        rcases xs with _ | ⟨pv, xs⟩
        · simp [decodeLine, Request.fromJson] at h
        rcases xs with _ | ⟨ev, xs⟩
        case cons => simp [decodeLine, Request.fromJson] at h
        case nil =>
          rcases jrv with _ | b | q | jr | ys | fs
          case str =>
            rcases mv with _ | b2 | q2 | m | ys2 | fs2
            case str => exact ⟨jr, m, idv, pv, rfl⟩
            all_goals simp [decodeLine, Request.fromJson] at h
          all_goals simp [decodeLine, Request.fromJson] at h
      | null => simp [decodeLine, Request.fromJson] at h
      | bool b => simp [decodeLine, Request.fromJson] at h
      | num q => simp [decodeLine, Request.fromJson] at h
      | str t => simp [decodeLine, Request.fromJson] at h
  · rintro ⟨j, rfl, hcase⟩
    rcases hcase with ⟨fields, jr, m, rfl, hd, h1, h2⟩ | ⟨jr, m, idv, pv, rfl⟩
    · simp [decodeLine, Request.fromJson, hd, h1, h2]
    · simp [decodeLine, Request.fromJson]
  · intro h
    unfold MCPServer.processLine
    rw [h]
    rfl
  · intro req h
    unfold MCPServer.processLine
    rw [h]

/-- Witness for C3: the unparseable line is answered with id null and
error code -32700. -/
theorem decode_failure_characterization_witness :
    (MCPServer.new "srv").processLine "srv" [] noResources Line.garbage
      = { jsonrpc := "2.0", id := none, result := none,
          error := some { code := -32700, message := "Parse error" } } :=
  (decode_failure_characterization (MCPServer.new "srv") "srv" [] noResources
      Line.garbage).2.2.2.1 rfl

/-- C4: a decoded request whose method is none of the five recognized
strings is answered with error code -32601 and a message containing the
method string. -/
theorem unknown_method_not_found (s : MCPServer) (serverName : String)
    (listResources : List Json) (readResource : Json → Except String Json)
    (req : Request)
    (h1 : req.method ≠ "initialize") (h2 : req.method ≠ "tools/list")
    (h3 : req.method ≠ "tools/call") (h4 : req.method ≠ "resources/list")
    (h5 : req.method ≠ "resources/read") :
    s.handle_request serverName listResources readResource req
      = { jsonrpc := "2.0", id := req.id, result := none,
          error := some { code := -32601,
                          message := "Method not found: " ++ req.method } } ∧
    req.method.data <:+: ("Method not found: " ++ req.method).data := by
  constructor
  · unfold MCPServer.handle_request
    split <;> simp_all
  · rw [String.data_append]
    exact (List.suffix_append _ _).isInfix

/-- Witness for C4: the unrecognized method "ping". -/
theorem unknown_method_not_found_witness :
    (MCPServer.new "srv").handle_request "srv" [] noResources
        { jsonrpc := "2.0", method := "ping", id := none, params := none }
      = { jsonrpc := "2.0", id := none, result := none,
          error := some { code := -32601,
                          message := "Method not found: ping" } } ∧
    "ping".data <:+: ("Method not found: " ++ "ping").data :=
  unknown_method_not_found (MCPServer.new "srv") "srv" [] noResources
    { jsonrpc := "2.0", method := "ping", id := none, params := none }
    (by decide) (by decide) (by decide) (by decide) (by decide)

/-- C5: a decoded request with method tools/call or resources/read and
absent params is answered with error code -32602 and no result. -/
theorem absent_params_invalid_params (s : MCPServer) (serverName : String)
    (listResources : List Json) (readResource : Json → Except String Json)
    (req : Request)
    (hm : req.method = "tools/call" ∨ req.method = "resources/read")
    (hp : req.params = none) :
    (s.handle_request serverName listResources readResource req).result = none ∧
    (s.handle_request serverName listResources readResource req).error
      = some { code := -32602, message := "Invalid params" } := by
  rcases hm with hm | hm <;>
    simp [MCPServer.handle_request, hm, hp, handle_call_tool, handle_read_resource]

/-- Witness for C5: a tools/call request without params. -/
theorem absent_params_invalid_params_witness :
    ((MCPServer.new "srv").handle_request "srv" [] noResources
        { jsonrpc := "2.0", method := "tools/call", id := none,
          params := none }).result = none ∧
    ((MCPServer.new "srv").handle_request "srv" [] noResources
        { jsonrpc := "2.0", method := "tools/call", id := none,
          params := none }).error
      = some { code := -32602, message := "Invalid params" } :=
  absent_params_invalid_params (MCPServer.new "srv") "srv" [] noResources
    { jsonrpc := "2.0", method := "tools/call", id := none, params := none }
    (Or.inl rfl) rfl

/-- C6: a tools/call request with params present whose tool invocation
fails is answered with error code -32603 and the provider's failure text
verbatim as the message; in particular the tool name "bogus" yields the
message "Unknown tool: bogus". -/
theorem tool_failure_internal_error (s : MCPServer) (serverName : String)
    (listResources : List Json) (readResource : Json → Except String Json) :
    (∀ (req : Request) (p : Json) (e : String),
        req.method = "tools/call" → req.params = some p →
        call_tool serverName p = .error e →
        s.handle_request serverName listResources readResource req
          = { jsonrpc := "2.0", id := req.id, result := none,
              error := some { code := -32603, message := e } }) ∧
    call_tool serverName
        (Json.obj [("name", Json.str "bogus"), ("arguments", Json.obj [])])
      = .error "Unknown tool: bogus" ∧
    s.handle_request serverName listResources readResource
        { jsonrpc := "2.0", method := "tools/call", id := none,
          params := some (Json.obj [("name", Json.str "bogus"),
                                    ("arguments", Json.obj [])]) }
      = { jsonrpc := "2.0", id := none, result := none,
          error := some { code := -32603, message := "Unknown tool: bogus" } } := by
  refine ⟨?_, rfl, ?_⟩
  · intro req p e hm hp he
    exact tools_call_error_response s serverName listResources readResource
      req p e hm hp he
  · exact tools_call_error_response s serverName listResources readResource
      _ _ _ rfl rfl rfl

/-- Witness for C6: calling the hello tool without an arguments field
fails with the provider's text verbatim. -/
theorem tool_failure_internal_error_witness :
    (MCPServer.new "srv").handle_request "srv" [] noResources
        { jsonrpc := "2.0", method := "tools/call", id := none,
          params := some (Json.obj [("name", Json.str "hello")]) }
      = { jsonrpc := "2.0", id := none, result := none,
          error := some { code := -32603,
                          message := "Missing tool arguments" } } :=
  (tool_failure_internal_error (MCPServer.new "srv") "srv" [] noResources).1
    { jsonrpc := "2.0", method := "tools/call", id := none,
      params := some (Json.obj [("name", Json.str "hello")]) }
    (Json.obj [("name", Json.str "hello")]) "Missing tool arguments"
    rfl rfl rfl

/-- C7: an initialize request is answered, whatever its params (absent
included), with the fixed result object built from the name and version
fixed at construction. -/
theorem initialize_result_fixed (serverName : String) (listResources : List Json)
    (readResource : Json → Except String Json) (req : Request)
    (hm : req.method = "initialize") :
    (MCPServer.new serverName).handle_request serverName listResources readResource req
      = { jsonrpc := "2.0", id := req.id,
          result := some (.obj
            [("protocolVersion", .str "1.0"),
             ("capabilities", .obj [("tools", .obj []), ("resources", .obj [])]),
             ("serverInfo", .obj [("name", .str serverName),
                                  ("version", .str "0.1.0")])]),
          error := none } := by
  simp [MCPServer.handle_request, hm, MCPServer.handle_initialize, MCPServer.new]

/-- Witness for C7: an initialize request with absent params. -/
theorem initialize_result_fixed_witness :
    (MCPServer.new "srv").handle_request "srv" [] noResources
        { jsonrpc := "2.0", method := "initialize", id := none, params := none }
      = { jsonrpc := "2.0", id := none,
          result := some (.obj
            [("protocolVersion", .str "1.0"),
             ("capabilities", .obj [("tools", .obj []), ("resources", .obj [])]),
             ("serverInfo", .obj [("name", .str "srv"),
                                  ("version", .str "0.1.0")])]),
          error := none } :=
  initialize_result_fixed "srv" [] noResources
    { jsonrpc := "2.0", method := "initialize", id := none, params := none } rfl

/-- C8: a tools/call of the add tool with numeric arguments a and b
returns the content object whose text is the formatted a, plus sign, b,
equals sign and sum; in particular a = 2 and b = 3 give the text
"2 + 3 = 5" exactly. -/
theorem add_tool_result (s : MCPServer) (serverName : String)
    (listResources : List Json) (readResource : Json → Except String Json) :
    (∀ (req : Request) (p args : Json) (a b : Rat),
        req.method = "tools/call" → req.params = some p →
        p.index "name" = .str "add" →
        p.get "arguments" = some args →
        args.index "a" = .num a → args.index "b" = .num b →
        s.handle_request serverName listResources readResource req
          = { jsonrpc := "2.0", id := req.id,
              result := some (.obj [("content", .arr
                [.obj [("type", .str "text"),
                       ("text", .str (fmtNum a ++ " + " ++ fmtNum b ++ " = " ++
                                      fmtNum (a + b)))]])]),
              error := none }) ∧
    s.handle_request serverName listResources readResource
        { jsonrpc := "2.0", method := "tools/call", id := none,
          params := some (Json.obj
            [("name", Json.str "add"),
             ("arguments", Json.obj [("a", Json.num 2), ("b", Json.num 3)])]) }
      = { jsonrpc := "2.0", id := none,
          result := some (.obj [("content", .arr
            [.obj [("type", .str "text"), ("text", .str "2 + 3 = 5")]])]),
          error := none } := by
  constructor
  · intro req p args a b hm hp hname hargs ha hb
    exact tools_call_add_response s serverName listResources readResource
      req p args a b hm hp hname hargs ha hb
  · have h := tools_call_add_response s serverName listResources readResource
      { jsonrpc := "2.0", method := "tools/call", id := none,
        params := some (Json.obj
          [("name", Json.str "add"),
           ("arguments", Json.obj [("a", Json.num 2), ("b", Json.num 3)])]) }
      (Json.obj
        [("name", Json.str "add"),
         ("arguments", Json.obj [("a", Json.num 2), ("b", Json.num 3)])])
      (Json.obj [("a", Json.num 2), ("b", Json.num 3)]) 2 3
      rfl rfl rfl rfl rfl rfl
    rw [h]
    have h5 : (2 + 3 : Rat) = 5 := by norm_num
    rw [h5]
    rfl

/-- Witness for C8: the add tool on a = 2 and b = 3. -/
theorem add_tool_result_witness :
    (MCPServer.new "srv").handle_request "srv" [] noResources
        { jsonrpc := "2.0", method := "tools/call", id := none,
          params := some (Json.obj
            [("name", Json.str "add"),
             ("arguments", Json.obj [("a", Json.num 2), ("b", Json.num 3)])]) }
      = { jsonrpc := "2.0", id := none,
          result := some (.obj [("content", .arr
            [.obj [("type", .str "text"), ("text", .str "2 + 3 = 5")]])]),
          error := none } :=
  (add_tool_result (MCPServer.new "srv") "srv" [] noResources).2

/-- C9: a tools/call of the hello tool with a string name argument returns
the content object whose text greets that name and contains the server's
name; in particular the name "Ada" gives a text containing "Hello, Ada!". -/
theorem hello_tool_result (serverName : String) (listResources : List Json)
    (readResource : Json → Except String Json) :
    (∀ (req : Request) (p args : Json) (n : String),
        req.method = "tools/call" → req.params = some p →
        p.index "name" = .str "hello" →
        p.get "arguments" = some args →
        args.index "name" = .str n →
        (MCPServer.new serverName).handle_request serverName listResources
            readResource req
          = { jsonrpc := "2.0", id := req.id,
              result := some (.obj [("content", .arr
                [.obj [("type", .str "text"),
                       ("text", .str ("Hello, " ++ n ++ "! This is " ++
                                      serverName ++ " speaking."))]])]),
              error := none } ∧
        (MCPServer.new serverName).name.data <:+:
          ("Hello, " ++ n ++ "! This is " ++ serverName ++ " speaking.").data) ∧
    (MCPServer.new serverName).handle_request serverName listResources readResource
        { jsonrpc := "2.0", method := "tools/call", id := none,
          params := some (Json.obj
            [("name", Json.str "hello"),
             ("arguments", Json.obj [("name", Json.str "Ada")])]) }
      = { jsonrpc := "2.0", id := none,
          result := some (.obj [("content", .arr
            [.obj [("type", .str "text"),
                   ("text", .str ("Hello, Ada! This is " ++ serverName ++
                                  " speaking."))]])]),
          error := none } ∧
    "Hello, Ada!".data <:+:
      ("Hello, Ada! This is " ++ serverName ++ " speaking.").data := by
  refine ⟨?_, ?_, ?_⟩
  · intro req p args n hm hp hname hargs hn
    refine ⟨tools_call_hello_response (MCPServer.new serverName) serverName
      listResources readResource req p args n hm hp hname hargs hn, ?_⟩
    show serverName.data <:+: _
    exact ⟨("Hello, " ++ n ++ "! This is ").data, " speaking.".data,
           by simp [String.data_append]⟩
  · exact tools_call_hello_response (MCPServer.new serverName) serverName
      listResources readResource _ _ _ "Ada" rfl rfl rfl rfl rfl
  · refine List.IsPrefix.isInfix ?_
    refine ⟨(" This is " ++ serverName ++ " speaking.").data, ?_⟩
    simp [String.data_append]

/-- Witness for C9: the hello tool greeting "Ada". -/
theorem hello_tool_result_witness :
    (MCPServer.new "srv").handle_request "srv" [] noResources
        { jsonrpc := "2.0", method := "tools/call", id := none,
          params := some (Json.obj
            [("name", Json.str "hello"),
             ("arguments", Json.obj [("name", Json.str "Ada")])]) }
      = { jsonrpc := "2.0", id := none,
          result := some (.obj [("content", .arr
            [.obj [("type", .str "text"),
                   ("text", .str "Hello, Ada! This is srv speaking.")]])]),
          error := none } ∧
    "Hello, Ada!".data <:+: "Hello, Ada! This is srv speaking.".data :=
  ⟨((hello_tool_result "srv" [] noResources).1
      { jsonrpc := "2.0", method := "tools/call", id := none,
        params := some (Json.obj
          [("name", Json.str "hello"),
           ("arguments", Json.obj [("name", Json.str "Ada")])]) }
      (Json.obj
        [("name", Json.str "hello"),
         ("arguments", Json.obj [("name", Json.str "Ada")])])
      (Json.obj [("name", Json.str "Ada")]) "Ada"
      rfl rfl rfl rfl rfl).1,
   by decide⟩

/-- C10: handling never reads the jsonrpc field of a request: two requests
differing only in that field get identical responses, and every emitted
response carries jsonrpc "2.0". -/
theorem jsonrpc_field_never_read (s : MCPServer) (serverName : String)
    (listResources : List Json) (readResource : Json → Except String Json)
    (jr1 jr2 m : String) (id : Option Json) (params : Option Json) :
    s.handle_request serverName listResources readResource
        { jsonrpc := jr1, method := m, id := id, params := params }
      = s.handle_request serverName listResources readResource
        { jsonrpc := jr2, method := m, id := id, params := params } ∧
    ∀ line, (s.processLine serverName listResources readResource line).jsonrpc = "2.0" :=
  ⟨rfl, fun line => processLine_jsonrpc s serverName listResources readResource line⟩

end ContextPods
